import Mathlib

/-
Shallow embedding of the subscription-tracker backend
(src/models/Subscription.js and src/routes/subscriptions.js).

Modelling conventions:
- JavaScript numbers are modelled as rationals; dates as epoch
  milliseconds (integers); Mongo ObjectId values as naturals.
- The Mongo collection is a list of documents; queries are filters over
  that list, and findOne / findOneAndUpdate act on the first match.
- parseFloat(x.toFixed(2)) is modelled as rounding to 2 decimal places.
- Route handlers are pure functions from the database and request data
  to a response (and, for mutations, the new database).
-/

namespace SubTracker

/-- billingCycle enum from the schema: monthly or yearly. -/
inductive BillingCycle
  | monthly
  | yearly
deriving DecidableEq, Repr

/-- category enum from the schema. -/
inductive Category
  | entertainment
  | productivity
  | fitness
  | education
  | music
  | news
  | cloud
  | other
deriving DecidableEq, Repr

/-- A subscription document (src/models/Subscription.js schema). -/
structure Subscription where
  id : Nat
  user : Nat
  name : String
  cost : ℚ
  billingCycle : BillingCycle
  renewalDate : Option Int
  category : Category
  color : String
  isActive : Bool
  notes : String
  createdAt : Int
  updatedAt : Int
deriving DecidableEq, Repr

/-- The monthlyCost virtual of the model (Subscription.js lines 64-69):
cost / 12 for yearly billing, cost otherwise. -/
def monthlyCost (s : Subscription) : ℚ :=
  if s.billingCycle = BillingCycle.yearly then s.cost / 12 else s.cost

/-- The inline monthly-cost computation repeated in the route handlers
(subscriptions.js lines 19 and 204). -/
def routeMonthlyCost (s : Subscription) : ℚ :=
  if s.billingCycle = BillingCycle.yearly then s.cost / 12 else s.cost

/-- Rounding to two decimal places, modelling parseFloat(x.toFixed(2)). -/
def round2 (q : ℚ) : ℚ := (round (q * 100) : ℤ) / 100

/-- The database: the subscriptions collection. -/
abbrev DB := List Subscription

/-- The query condition used by the list and stats endpoints:
user matches the requester and isActive is true. -/
def activeFor (uid : Nat) (s : Subscription) : Bool :=
  s.user == uid && s.isActive

/-- The list-endpoint query (subscriptions.js lines 12-15):
find the requester's active subscriptions, sorted by createdAt descending. -/
def listQuery (db : DB) (uid : Nat) : List Subscription :=
  List.insertionSort (fun a b => b.createdAt ≤ a.createdAt) (db.filter (activeFor uid))

/-- Accumulator of the totals reduce. -/
structure Totals where
  monthly : ℚ
  yearly : ℚ
deriving DecidableEq, Repr

/-- One step of the totals reduce (subscriptions.js lines 18-23). -/
def totalsStep (acc : Totals) (sub : Subscription) : Totals :=
  let mc := if sub.billingCycle = BillingCycle.yearly then sub.cost / 12 else sub.cost
  { monthly := acc.monthly + mc, yearly := acc.yearly + mc * 12 }

/-- The totals reduce over the fetched subscription list. -/
def listTotals (subs : List Subscription) : Totals :=
  subs.foldl totalsStep { monthly := 0, yearly := 0 }

/-- Response of GET /api/subscriptions. -/
structure ListResponse where
  status : Nat
  success : Bool
  count : Nat
  subscriptions : List Subscription
  totals : Totals
deriving DecidableEq, Repr

/-- Handler of GET /api/subscriptions (subscriptions.js lines 10-41). -/
def listHandler (db : DB) (uid : Nat) : ListResponse :=
  let subscriptions := listQuery db uid
  let totals := listTotals subscriptions
  { status := 200
    success := true
    count := subscriptions.length
    subscriptions := subscriptions
    totals := { monthly := round2 totals.monthly, yearly := round2 totals.yearly } }

/-- Response of GET /api/subscriptions/:id. -/
structure SingleResponse where
  status : Nat
  success : Bool
  message : Option String
  subscription : Option Subscription
deriving DecidableEq, Repr

/-- The generic not-found response (subscriptions.js lines 53-58). -/
def notFoundResponse : SingleResponse :=
  { status := 404
    success := false
    message := some "Subscription not found"
    subscription := none }

/-- Handler of GET /api/subscriptions/:id (subscriptions.js lines 46-71).
The findOne filter matches on id and owner only; it does NOT require
isActive = true. -/
def getByIdHandler (db : DB) (uid : Nat) (id : Nat) : SingleResponse :=
  match db.find? (fun s => s.id == id && s.user == uid) with
  | none => notFoundResponse
  | some s =>
      { status := 200, success := true, message := none, subscription := some s }

/-- One field-level validation error of the express-validator errors array. -/
structure FieldError where
  path : String
  msg : String
deriving DecidableEq, Repr

/-- Request body of POST /api/subscriptions. Fields are typed, which
models the isFloat / isIn format checks of express-validator; range and
emptiness checks are modelled explicitly below. -/
structure CreateBody where
  name : String
  cost : ℚ
  billingCycle : BillingCycle
  renewalDate : Option Int
  category : Option Category
  color : Option String
  isActive : Option Bool
  notes : Option String
deriving DecidableEq, Repr

/-- Executable model of the whitespace trim applied by the validator
sanitizer and by the schema trim option: drop whitespace from both ends. -/
def trimWS (s : String) : String :=
  String.mk (((s.data.dropWhile Char.isWhitespace).reverse.dropWhile Char.isWhitespace).reverse)

/-- The express-validator chain of POST / (subscriptions.js lines 78-81):
name must be nonempty after trimming, cost must satisfy the
isFloat min 0 check. billingCycle and category membership in their enums
holds by construction of the typed body. -/
def validateCreate (b : CreateBody) : List FieldError :=
  (if trimWS b.name = "" then
    [{ path := "name", msg := "Subscription name is required" }] else []) ++
  (if b.cost < 0 then
    [{ path := "cost", msg := "Cost must be a positive number" }] else [])

/-- The hex-color match of the schema (Subscription.js line 37),
modelling the regular expression for a hash sign and six hex digits,
case-insensitive. -/
def validColor (c : String) : Bool :=
  match c.data with
  | '#' :: rest =>
      rest.length == 6 &&
      rest.all fun ch => ch.isDigit || ('A' ≤ ch && ch ≤ 'F') || ('a' ≤ ch && ch ≤ 'f')
  | _ => false

/-- Document-level schema validation run at save time for the fields not
covered by the typed body: color pattern and notes maxlength 500. -/
def schemaValidDoc (s : Subscription) : Bool :=
  validColor s.color && decide (s.notes.length ≤ 500)

/-- Constructing the new document (subscriptions.js lines 93-96 plus the
schema defaults): the body is spread first, then user is set to the
requester, so a user field in the body cannot override ownership. -/
def buildSubscription (b : CreateBody) (uid : Nat) (newId : Nat) (now : Int) : Subscription :=
  { id := newId
    user := uid
    name := trimWS b.name
    cost := b.cost
    billingCycle := b.billingCycle
    renewalDate := b.renewalDate
    category := b.category.getD Category.other
    color := b.color.getD "#6366f1"
    isActive := b.isActive.getD true
    notes := b.notes.getD ""
    createdAt := now
    updatedAt := now }

/-- The pre-save hook (Subscription.js lines 58-61): set updatedAt to the
current time. -/
def preSave (now : Int) (s : Subscription) : Subscription :=
  { s with updatedAt := now }

/-- Response of the mutating endpoints (POST, PUT, DELETE). -/
structure MutResponse where
  status : Nat
  success : Bool
  message : Option String
  errors : List FieldError
  subscription : Option Subscription
deriving DecidableEq, Repr

/-- Handler of POST /api/subscriptions (subscriptions.js lines 76-112).
A schema-validation failure at save time is surfaced as the caught 500
path. -/
def createHandler (db : DB) (uid : Nat) (b : CreateBody) (newId : Nat) (now : Int) :
    MutResponse × DB :=
  let errors := validateCreate b
  if errors.isEmpty then
    let doc := preSave now (buildSubscription b uid newId now)
    if schemaValidDoc doc then
      ({ status := 201
         success := true
         message := some "Subscription created successfully"
         errors := []
         subscription := some doc }, db ++ [doc])
    else
      ({ status := 500, success := false, message := some "Server error"
         errors := [], subscription := none }, db)
  else
    ({ status := 400, success := false, message := none
       errors := errors, subscription := none }, db)

/-- Request body of PUT /api/subscriptions/:id: every field is optional,
and fields with no validation rule (isActive, user, createdAt) pass
straight through. An updatedAt field in the body is ignored because the
handler spreads updatedAt after the body. -/
structure UpdateBody where
  name : Option String
  cost : Option ℚ
  billingCycle : Option BillingCycle
  renewalDate : Option Int
  category : Option Category
  color : Option String
  isActive : Option Bool
  notes : Option String
  user : Option Nat
  createdAt : Option Int
deriving DecidableEq, Repr

/-- The express-validator chain of PUT /:id (subscriptions.js lines
119-122): all checks optional; name nonempty after trimming, cost
isFloat min 0. -/
def validateUpdate (b : UpdateBody) : List FieldError :=
  (match b.name with
   | some n => if trimWS n = "" then [{ path := "name", msg := "Invalid value" }] else []
   | none => []) ++
  (match b.cost with
   | some c => if c < 0 then [{ path := "cost", msg := "Invalid value" }] else []
   | none => [])

/-- Schema validation run on the updated paths because of
runValidators: true (subscriptions.js line 137). -/
def schemaValidUpdate (b : UpdateBody) : Bool :=
  (match b.color with | some c => validColor c | none => true) &&
  (match b.notes with | some n => decide (n.length ≤ 500) | none => true) &&
  (match b.name with | some n => !(trimWS n == "") | none => true) &&
  (match b.cost with | some c => decide (0 ≤ c) | none => true)

/-- The field merge of findOneAndUpdate with the spread body
(subscriptions.js line 136): every field present in the body is written;
updatedAt is always set to now because it is spread after the body. -/
def applyUpdate (b : UpdateBody) (now : Int) (s : Subscription) : Subscription :=
  { id := s.id
    user := b.user.getD s.user
    name := (b.name.map trimWS).getD s.name
    cost := b.cost.getD s.cost
    billingCycle := b.billingCycle.getD s.billingCycle
    renewalDate := match b.renewalDate with | some d => some d | none => s.renewalDate
    category := b.category.getD s.category
    color := b.color.getD s.color
    isActive := b.isActive.getD s.isActive
    notes := b.notes.getD s.notes
    createdAt := b.createdAt.getD s.createdAt
    updatedAt := now }

/-- Replace the first document matching p by its image under f,
modelling the single-document update of findOneAndUpdate. -/
def updateFirst (p : Subscription → Bool) (f : Subscription → Subscription) : DB → DB
  | [] => []
  | s :: rest => if p s then f s :: rest else s :: updateFirst p f rest

/-- The findOneAndUpdate filter of PUT and DELETE (subscriptions.js
lines 135 and 167): id and owner only, no isActive condition. -/
def mutFilter (uid : Nat) (id : Nat) (s : Subscription) : Bool :=
  s.id == id && s.user == uid

/-- Handler of PUT /api/subscriptions/:id (subscriptions.js lines
117-159). -/
def putHandler (db : DB) (uid : Nat) (id : Nat) (b : UpdateBody) (now : Int) :
    MutResponse × DB :=
  let errors := validateUpdate b
  if errors.isEmpty then
    match db.find? (mutFilter uid id) with
    | none =>
        ({ status := 404, success := false, message := some "Subscription not found"
           errors := [], subscription := none }, db)
    | some s =>
        if schemaValidUpdate b then
          ({ status := 200
             success := true
             message := some "Subscription updated successfully"
             errors := []
             subscription := some (applyUpdate b now s) },
           updateFirst (mutFilter uid id) (applyUpdate b now) db)
        else
          ({ status := 500, success := false, message := some "Server error"
             errors := [], subscription := none }, db)
  else
    ({ status := 400, success := false, message := none
       errors := errors, subscription := none }, db)

/-- The soft-delete update of DELETE /:id (subscriptions.js line 168):
set isActive to false and refresh updatedAt. -/
def applyDelete (now : Int) (s : Subscription) : Subscription :=
  { s with isActive := false, updatedAt := now }

/-- Handler of DELETE /api/subscriptions/:id (subscriptions.js lines
164-190). The response body contains no subscription; the document is
updated in place, never removed. -/
def deleteHandler (db : DB) (uid : Nat) (id : Nat) (now : Int) :
    MutResponse × DB :=
  match db.find? (mutFilter uid id) with
  | none =>
      ({ status := 404, success := false, message := some "Subscription not found"
         errors := [], subscription := none }, db)
  | some _ =>
      ({ status := 200, success := true, message := some "Subscription deleted successfully"
         errors := [], subscription := none },
       updateFirst (mutFilter uid id) (applyDelete now) db)

/-- One step of the category-breakdown reduce (subscriptions.js lines
203-207): add the monthly cost to the entry of the document category,
creating it at 0 when absent. -/
def categoryStep (acc : Category → Option ℚ) (sub : Subscription) : Category → Option ℚ :=
  let mc := if sub.billingCycle = BillingCycle.yearly then sub.cost / 12 else sub.cost
  fun c => if c = sub.category then some ((acc sub.category).getD 0 + mc) else acc c

/-- The category breakdown: a finite mapping, where none models the
absence of the key in the result object. -/
def categoryBreakdown (subs : List Subscription) : Category → Option ℚ :=
  subs.foldl categoryStep (fun _ => none)

/-- Thirty days in milliseconds (subscriptions.js line 211). -/
def thirtyDaysMs : Int := 30 * 24 * 60 * 60 * 1000

/-- The upcoming-renewal filter (subscriptions.js line 214): renewalDate
present and at most thirty days after now. -/
def renewalWithin (now : Int) (s : Subscription) : Bool :=
  match s.renewalDate with
  | some d => decide (d ≤ now + thirtyDaysMs)
  | none => false

/-- Sort key of the renewal sort comparator (subscriptions.js line 215). -/
def renewalKey (s : Subscription) : Int :=
  s.renewalDate.getD 0

/-- The renewal ordering used by the sort. -/
def renewalLE (a b : Subscription) : Prop :=
  renewalKey a ≤ renewalKey b

instance : DecidableRel renewalLE :=
  fun a b => inferInstanceAs (Decidable (renewalKey a ≤ renewalKey b))

/-- The upcoming-renewals pipeline (subscriptions.js lines 213-216):
filter to renewals within thirty days, sort ascending by renewalDate,
take the first five. -/
def upcomingRenewals (now : Int) (subs : List Subscription) : List Subscription :=
  List.take 5 (List.insertionSort renewalLE (subs.filter (renewalWithin now)))

/-- The projection of a renewal entry (subscriptions.js lines 223-229). -/
structure RenewalEntry where
  id : Nat
  name : String
  renewalDate : Option Int
  cost : ℚ
  billingCycle : BillingCycle
deriving DecidableEq, Repr

/-- Project a document to the renewal entry shape. -/
def projectRenewal (s : Subscription) : RenewalEntry :=
  { id := s.id
    name := s.name
    renewalDate := s.renewalDate
    cost := s.cost
    billingCycle := s.billingCycle }

/-- Response of GET /api/subscriptions/stats/overview. -/
structure StatsResponse where
  status : Nat
  success : Bool
  totalSubscriptions : Nat
  categoryBreakdown : Category → Option ℚ
  upcomingRenewals : List RenewalEntry

/-- Handler of GET /api/subscriptions/stats/overview (subscriptions.js
lines 195-239). -/
def statsHandler (db : DB) (uid : Nat) (now : Int) : StatsResponse :=
  let subscriptions := db.filter (activeFor uid)
  { status := 200
    success := true
    totalSubscriptions := subscriptions.length
    categoryBreakdown := categoryBreakdown subscriptions
    upcomingRenewals := (upcomingRenewals now subscriptions).map projectRenewal }

/-
Concrete fixtures used by example conjuncts, witnesses and
counterexamples.
-/

/-- A monthly 12-cost subscription of user 1. -/
def exMonthly : Subscription :=
  { id := 1, user := 1, name := "Netflix", cost := 12, billingCycle := .monthly
    renewalDate := some 1000, category := .entertainment, color := "#6366f1"
    isActive := true, notes := "", createdAt := 1, updatedAt := 1 }

/-- A yearly 120-cost subscription of user 1, with no renewal date. -/
def exYearly : Subscription :=
  { id := 2, user := 1, name := "Prime", cost := 120, billingCycle := .yearly
    renewalDate := none, category := .other, color := "#6366f1"
    isActive := true, notes := "", createdAt := 0, updatedAt := 0 }

/-- The example database of the spec: cost 12 monthly and cost 120 yearly. -/
def exampleDb : DB := [exMonthly, exYearly]

/-- A soft-deleted subscription of user 1. -/
def softDeletedSub : Subscription :=
  { id := 5, user := 1, name := "Hulu", cost := 8, billingCycle := .monthly
    renewalDate := none, category := .entertainment, color := "#6366f1"
    isActive := false, notes := "", createdAt := 3, updatedAt := 3 }

/-- An active subscription owned by user 2. -/
def otherUserSub : Subscription :=
  { id := 7, user := 2, name := "Gym", cost := 30, billingCycle := .monthly
    renewalDate := some 500, category := .fitness, color := "#6366f1"
    isActive := true, notes := "", createdAt := 4, updatedAt := 4 }

/-- A create body with negative cost. -/
def badCostBody : CreateBody :=
  { name := "Netflix", cost := -1, billingCycle := .monthly
    renewalDate := none, category := none, color := none
    isActive := none, notes := none }

/-- A valid create body. -/
def goodBody : CreateBody :=
  { name := "Spotify", cost := 10, billingCycle := .monthly
    renewalDate := none, category := some .music, color := none
    isActive := none, notes := none }

/-- An update body with no field present. -/
def emptyUpdate : UpdateBody :=
  { name := none, cost := none, billingCycle := none, renewalDate := none
    category := none, color := none, isActive := none, notes := none
    user := none, createdAt := none }

/-- An update body that reactivates a record, reassigns its owner to
user 2 and rewrites createdAt, all through fields with no validation
rule. -/
def reactivateBody : UpdateBody :=
  { name := none, cost := none, billingCycle := none, renewalDate := none
    category := none, color := none, isActive := some true, notes := none
    user := some 2, createdAt := some 42 }

instance : IsTotal Subscription renewalLE :=
  ⟨fun a b => le_total (renewalKey a) (renewalKey b)⟩

instance : IsTrans Subscription renewalLE :=
  ⟨fun _ _ _ hab hbc => le_trans hab hbc⟩

/-
Theorems.
-/

/-- Helper: unfolding the totals reduce over any accumulator. -/
theorem listTotals_foldl (l : List Subscription) (acc : Totals) :
    (l.foldl totalsStep acc).monthly = acc.monthly + (l.map monthlyCost).sum ∧
    (l.foldl totalsStep acc).yearly = acc.yearly + (l.map monthlyCost).sum * 12 := by
  induction l generalizing acc with
  | nil => simp
  | cons s t ih =>
    obtain ⟨ih1, ih2⟩ := ih (totalsStep acc s)
    constructor
    · rw [List.foldl_cons, ih1]
      simp only [totalsStep, monthlyCost, List.map_cons, List.sum_cons]
      ring
    · rw [List.foldl_cons, ih2]
      simp only [totalsStep, monthlyCost, List.map_cons, List.sum_cons]
      ring

/-- C2: the derived monthlyCost equals cost / 12 for yearly billing and
cost otherwise, both for the model virtual and for the inline computation
of the route handlers, and the two computations agree. -/
theorem monthlyCost_correct (s : Subscription) :
    routeMonthlyCost s = monthlyCost s ∧
    (s.billingCycle = BillingCycle.yearly → monthlyCost s = s.cost / 12) ∧
    (s.billingCycle ≠ BillingCycle.yearly → monthlyCost s = s.cost) := by
  refine ⟨rfl, fun h => ?_, fun h => ?_⟩
  · simp [monthlyCost, h]
  · simp [monthlyCost, h]

/-- Witness for C2 at the two concrete fixtures. -/
theorem monthlyCost_correct_witness :
    (exYearly.billingCycle = BillingCycle.yearly ∧
      monthlyCost exYearly = exYearly.cost / 12) ∧
    (exMonthly.billingCycle ≠ BillingCycle.yearly ∧
      monthlyCost exMonthly = exMonthly.cost) :=
  ⟨⟨rfl, (monthlyCost_correct exYearly).2.1 rfl⟩,
   ⟨by decide, (monthlyCost_correct exMonthly).2.2 (by decide)⟩⟩

/-- C3: the list-endpoint totals satisfy monthly = sum of monthlyCost
over the returned list and yearly = monthly times 12 exactly, rounding
to two decimals being applied only to the output fields; on the example
database the output totals are 22 and 264. -/
theorem totals_spec (db : DB) (uid : Nat) :
    (listTotals (listQuery db uid)).monthly = ((listQuery db uid).map monthlyCost).sum ∧
    (listTotals (listQuery db uid)).yearly = (listTotals (listQuery db uid)).monthly * 12 ∧
    (listHandler db uid).totals.monthly = round2 (listTotals (listQuery db uid)).monthly ∧
    (listHandler db uid).totals.yearly = round2 (listTotals (listQuery db uid)).yearly ∧
    (listHandler exampleDb 1).totals = { monthly := 22, yearly := 264 } := by
  obtain ⟨h1, h2⟩ := listTotals_foldl (listQuery db uid) { monthly := 0, yearly := 0 }
  have hm : (listTotals (listQuery db uid)).monthly =
      ((listQuery db uid).map monthlyCost).sum := by
    simpa [listTotals] using h1
  have hy : (listTotals (listQuery db uid)).yearly =
      ((listQuery db uid).map monthlyCost).sum * 12 := by
    simpa [listTotals] using h2
  refine ⟨hm, by rw [hy, hm], rfl, rfl, ?_⟩
  simp +decide [listHandler, listQuery, listTotals, totalsStep, activeFor,
    exampleDb, exMonthly, exYearly, List.insertionSort, List.orderedInsert,
    List.filter]
  norm_num [round2]

/-- Helper: the single-document update preserves the collection size. -/
theorem updateFirst_length (p : Subscription → Bool) (f : Subscription → Subscription) :
    ∀ db : DB, (updateFirst p f db).length = db.length := by
  intro db
  induction db with
  | nil => rfl
  | cons s rest ih =>
    by_cases hp : p s <;> simp [updateFirst, hp, ih]

/-- C1 counterexample: a soft-deleted subscription owned by the requester
is returned with status 200 by the single-get endpoint, because the
findOne filter does not require isActive = true. -/
theorem softDeleted_visible_in_single_get :
    softDeletedSub.isActive = false ∧
    (getByIdHandler [softDeletedSub] 1 5).status = 200 ∧
    (getByIdHandler [softDeletedSub] 1 5).subscription = some softDeletedSub := by
  decide

/-- C1 amended: a soft-deleted subscription never appears in the list
response or the stats response, and delete keeps the record in the
collection; but the single-get endpoint does return a soft-deleted
subscription to its owner. -/
theorem softDeleted_hidden_from_list_and_stats (db : DB) (uid : Nat) (now : Int)
    (s : Subscription) (h : s.isActive = false) :
    listHandler (s :: db) uid = listHandler db uid ∧
    statsHandler (s :: db) uid now = statsHandler db uid now ∧
    (∀ id, ((deleteHandler db uid id now).2).length = db.length) ∧
    (s.user = uid → getByIdHandler (s :: db) uid s.id =
      { status := 200, success := true, message := none, subscription := some s }) := by
  have hf : (s :: db).filter (activeFor uid) = db.filter (activeFor uid) := by
    simp [List.filter_cons, activeFor, h]
  refine ⟨?_, ?_, ?_, ?_⟩
  · simp [listHandler, listQuery, hf]
  · simp [statsHandler, hf]
  · intro id
    cases hfind : db.find? (mutFilter uid id) <;>
      simp [deleteHandler, hfind, updateFirst_length]
  · intro h2
    simp [getByIdHandler, List.find?, h2]

/-- Witness for the amended C1 at a concrete soft-deleted record. -/
theorem softDeleted_hidden_witness :
    softDeletedSub.isActive = false ∧
    (listHandler [softDeletedSub] 1 = listHandler [] 1 ∧
     statsHandler [softDeletedSub] 1 0 = statsHandler [] 1 0 ∧
     (∀ id, ((deleteHandler [] 1 id 0).2).length = ([] : DB).length) ∧
     (softDeletedSub.user = 1 → getByIdHandler [softDeletedSub] 1 softDeletedSub.id =
       { status := 200, success := true, message := none
         subscription := some softDeletedSub })) :=
  ⟨by decide, softDeleted_hidden_from_list_and_stats [] 1 0 softDeletedSub (by decide)⟩

/-- C6: with no active subscription the list endpoint returns zero totals
and the stats endpoint returns an empty breakdown and empty renewals,
both with status 200 and success true. -/
theorem empty_set_behavior (db : DB) (uid : Nat) (now : Int)
    (h : db.filter (activeFor uid) = []) :
    (listHandler db uid).totals = { monthly := 0, yearly := 0 } ∧
    (listHandler db uid).status = 200 ∧
    (listHandler db uid).success = true ∧
    (∀ c, (statsHandler db uid now).categoryBreakdown c = none) ∧
    (statsHandler db uid now).upcomingRenewals = [] ∧
    (statsHandler db uid now).status = 200 ∧
    (statsHandler db uid now).success = true := by
  have hq : listQuery db uid = [] := by
    simp [listQuery, h, List.insertionSort]
  refine ⟨?_, rfl, rfl, ?_, ?_, rfl, rfl⟩
  · simp [listHandler, hq, listTotals, round2]
  · intro c
    simp [statsHandler, h, categoryBreakdown]
  · simp [statsHandler, h, upcomingRenewals, List.insertionSort]

/-- Witness for C6 on the empty database. -/
theorem empty_set_behavior_witness :
    ([] : DB).filter (activeFor 1) = [] ∧
    ((listHandler [] 1).totals = { monthly := 0, yearly := 0 } ∧
     (listHandler [] 1).status = 200 ∧
     (listHandler [] 1).success = true ∧
     (∀ c, (statsHandler [] 1 0).categoryBreakdown c = none) ∧
     (statsHandler [] 1 0).upcomingRenewals = [] ∧
     (statsHandler [] 1 0).status = 200 ∧
     (statsHandler [] 1 0).success = true) :=
  ⟨rfl, empty_set_behavior [] 1 0 rfl⟩

/-- C7: a create request with negative cost is answered with status 400
and a cost validation error, and the collection is unchanged. -/
theorem create_negative_cost_rejected (db : DB) (uid : Nat) (b : CreateBody)
    (newId : Nat) (now : Int) (h : b.cost < 0) :
    (createHandler db uid b newId now).1.status = 400 ∧
    ({ path := "cost", msg := "Cost must be a positive number" } : FieldError) ∈
      (createHandler db uid b newId now).1.errors ∧
    (createHandler db uid b newId now).2 = db ∧
    (createHandler db uid b newId now).1.subscription = none := by
  simp only [createHandler, validateCreate, if_pos h]
  by_cases hn : trimWS b.name = "" <;> simp [hn]

/-- Witness for C7 at cost -1. -/
theorem create_negative_cost_witness :
    badCostBody.cost < 0 ∧
    ((createHandler [] 1 badCostBody 9 0).1.status = 400 ∧
     ({ path := "cost", msg := "Cost must be a positive number" } : FieldError) ∈
       (createHandler [] 1 badCostBody 9 0).1.errors ∧
     (createHandler [] 1 badCostBody 9 0).2 = [] ∧
     (createHandler [] 1 badCostBody 9 0).1.subscription = none) :=
  ⟨by decide, create_negative_cost_rejected [] 1 badCostBody 9 0 (by decide)⟩

/-- Helper for C8: when no document matches both the id and the owner,
the findOne query returns nothing. -/
theorem find_owner_none (db : DB) (uid id : Nat)
    (h : ∀ s ∈ db, s.id = id → s.user ≠ uid) :
    db.find? (fun s => s.id == id && s.user == uid) = none := by
  rw [List.find?_eq_none]
  intro x hx
  simp only [Bool.and_eq_true, beq_iff_eq, not_and]
  intro h1 h2
  exact h x hx h1 h2

/-- C8: fetching an id with no document matching both id and requester
(covering a nonexistent id as well as an id owned by another user)
yields the one generic not-found response, so the two cases are
indistinguishable. -/
theorem notFound_uniform (db : DB) (uid id : Nat)
    (h : ∀ s ∈ db, s.id = id → s.user ≠ uid) :
    getByIdHandler db uid id = notFoundResponse ∧
    (∀ (db2 : DB) (uid2 id2 : Nat), (∀ s ∈ db2, s.id = id2 → s.user ≠ uid2) →
      getByIdHandler db uid id = getByIdHandler db2 uid2 id2) := by
  have hf := find_owner_none db uid id h
  refine ⟨by simp [getByIdHandler, hf], ?_⟩
  intro db2 uid2 id2 h2
  have hf2 := find_owner_none db2 uid2 id2 h2
  simp [getByIdHandler, hf, hf2]

/-- Witness for C8: an id that exists under user 2 is as invisible to
user 1 as an id that exists nowhere. -/
theorem notFound_uniform_witness :
    (∀ s ∈ [otherUserSub], s.id = 7 → s.user ≠ 1) ∧
    getByIdHandler [otherUserSub] 1 7 = notFoundResponse ∧
    getByIdHandler [otherUserSub] 1 7 = getByIdHandler [] 1 7 := by
  have h : ∀ s ∈ [otherUserSub], s.id = 7 → s.user ≠ 1 := by decide
  obtain ⟨h1, h2⟩ := notFound_uniform [otherUserSub] 1 7 h
  exact ⟨h, h1, h2 [] 1 7 (by decide)⟩

/-- Helper: unfolding the category-breakdown reduce over any
accumulator. -/
theorem categoryBreakdown_foldl (l : List Subscription) (acc : Category → Option ℚ)
    (c : Category) :
    l.foldl categoryStep acc c =
      if l.filter (fun s => s.category == c) = [] then acc c
      else some ((acc c).getD 0 +
        ((l.filter (fun s => s.category == c)).map monthlyCost).sum) := by
  induction l generalizing acc with
  | nil => simp
  | cons s t ih =>
    rw [List.foldl_cons, ih (categoryStep acc s)]
    by_cases hc : s.category = c
    · subst hc
      have hstep : categoryStep acc s s.category =
          some ((acc s.category).getD 0 + monthlyCost s) := by
        simp [categoryStep, monthlyCost]
      by_cases ht : t.filter (fun x => x.category == s.category) = []
      · simp [List.filter_cons, ht, hstep]
      · simp [List.filter_cons, ht, hstep]
        ring
    · have hbc : (s.category == c) = false := by simp [hc]
      have hc2 : ¬ c = s.category := fun h => hc h.symm
      have hstep : categoryStep acc s c = acc c := by
        simp [categoryStep, hc2]
      simp only [List.filter_cons, hbc, Bool.false_eq_true, if_false, hstep]

/-- C5: the stats category breakdown maps a category to the sum of
monthlyCost over the requesting user's active subscriptions in that
category, and is absent for a category with no such subscription. -/
theorem categoryBreakdown_spec (db : DB) (uid : Nat) (now : Int) (c : Category) :
    (statsHandler db uid now).categoryBreakdown c =
      if ((db.filter (activeFor uid)).filter (fun s => s.category == c)) = [] then none
      else some ((((db.filter (activeFor uid)).filter
        (fun s => s.category == c)).map monthlyCost).sum) := by
  have h := categoryBreakdown_foldl (db.filter (activeFor uid)) (fun _ => none) c
  simp only [statsHandler, categoryBreakdown]
  rw [h]
  by_cases ht : ((db.filter (activeFor uid)).filter (fun s => s.category == c)) = [] <;>
    simp [ht]

/-- Helper: the image of the first match belongs to the updated
collection. -/
theorem updateFirst_mem (p : Subscription → Bool) (f : Subscription → Subscription) :
    ∀ (db : DB) (s : Subscription), db.find? p = some s → f s ∈ updateFirst p f db := by
  intro db
  induction db with
  | nil => intro s h; cases h
  | cons x rest ih =>
    intro s h
    by_cases hp : p x
    · rw [List.find?_cons_of_pos _ hp] at h
      obtain rfl : x = s := by injection h
      simp [updateFirst, hp]
    · rw [List.find?_cons_of_neg _ hp] at h
      simp only [updateFirst, hp, Bool.false_eq_true, if_false]
      exact List.mem_cons_of_mem x (ih s h)

/-- C9: every mutating write refreshes updatedAt: a successful create
returns and stores a document with updatedAt = now set by the pre-save
hook, a successful update returns the stored document with
updatedAt = now, and a successful soft delete leaves a matched document
with updatedAt = now in the collection. -/
theorem updatedAt_refreshed (db : DB) (uid id newId : Nat)
    (b : CreateBody) (ub : UpdateBody) (now : Int) :
    ((createHandler db uid b newId now).1.status = 201 →
      ∃ d, (createHandler db uid b newId now).1.subscription = some d ∧
        d.updatedAt = now ∧ (createHandler db uid b newId now).2 = db ++ [d]) ∧
    ((putHandler db uid id ub now).1.status = 200 →
      ∃ d, (putHandler db uid id ub now).1.subscription = some d ∧
        d.updatedAt = now) ∧
    ((deleteHandler db uid id now).1.status = 200 →
      ∃ d, d ∈ (deleteHandler db uid id now).2 ∧ d.id = id ∧ d.user = uid ∧
        d.updatedAt = now ∧ d.isActive = false) := by
  refine ⟨?_, ?_, ?_⟩
  · intro hst
    by_cases hv : (validateCreate b).isEmpty
    · by_cases hs : schemaValidDoc (preSave now (buildSubscription b uid newId now))
      · refine ⟨preSave now (buildSubscription b uid newId now), ?_, rfl, ?_⟩ <;>
          simp [createHandler, hv, hs]
      · simp [createHandler, hv, hs] at hst
    · simp [createHandler, hv] at hst
  · intro hst
    by_cases hv : (validateUpdate ub).isEmpty
    · cases hfind : db.find? (mutFilter uid id) with
      | none => simp [putHandler, hv, hfind] at hst
      | some s =>
        by_cases hs : schemaValidUpdate ub
        · exact ⟨applyUpdate ub now s, by simp [putHandler, hv, hfind, hs], rfl⟩
        · simp [putHandler, hv, hfind, hs] at hst
    · simp [putHandler, hv] at hst
  · intro hst
    cases hfind : db.find? (mutFilter uid id) with
    | none => simp [deleteHandler, hfind] at hst
    | some s =>
      have hp : mutFilter uid id s = true := List.find?_some hfind
      have hids : s.id = id ∧ s.user = uid := by
        simpa [mutFilter] using hp
      refine ⟨applyDelete now s, ?_, hids.1, hids.2, rfl, rfl⟩
      simp only [deleteHandler, hfind]
      exact updateFirst_mem (mutFilter uid id) (applyDelete now) db s hfind

/-- Witness for C9: create, update and soft delete at concrete inputs. -/
theorem updatedAt_refreshed_witness :
    ((createHandler [exMonthly] 1 goodBody 3 99).1.status = 201 →
      ∃ d, (createHandler [exMonthly] 1 goodBody 3 99).1.subscription = some d ∧
        d.updatedAt = 99 ∧ (createHandler [exMonthly] 1 goodBody 3 99).2 = [exMonthly] ++ [d]) ∧
    (createHandler [exMonthly] 1 goodBody 3 99).1.status = 201 ∧
    ((putHandler [exMonthly] 1 1 emptyUpdate 99).1.status = 200 →
      ∃ d, (putHandler [exMonthly] 1 1 emptyUpdate 99).1.subscription = some d ∧
        d.updatedAt = 99) ∧
    (putHandler [exMonthly] 1 1 emptyUpdate 99).1.status = 200 ∧
    ((deleteHandler [exMonthly] 1 1 99).1.status = 200 →
      ∃ d, d ∈ (deleteHandler [exMonthly] 1 1 99).2 ∧ d.id = 1 ∧ d.user = 1 ∧
        d.updatedAt = 99 ∧ d.isActive = false) ∧
    (deleteHandler [exMonthly] 1 1 99).1.status = 200 := by
  obtain ⟨h1, h2, h3⟩ := updatedAt_refreshed [exMonthly] 1 1 3 goodBody emptyUpdate 99
  exact ⟨h1, by decide, h2, by decide, h3, by decide⟩

/-- C10: the update endpoint writes every field present in the body,
including isActive, user and createdAt which have no validation rule;
the match filter does not require isActive = true, so an update can
reactivate a soft-deleted subscription or reassign it to another
owner. -/
theorem put_writes_all_fields (db : DB) (uid id : Nat) (b : UpdateBody) (now : Int)
    (s : Subscription)
    (hfind : db.find? (mutFilter uid id) = some s)
    (hval : validateUpdate b = [])
    (hschema : schemaValidUpdate b = true) :
    (putHandler db uid id b now).1.status = 200 ∧
    (putHandler db uid id b now).1.subscription = some (applyUpdate b now s) ∧
    (applyUpdate b now s).isActive = b.isActive.getD s.isActive ∧
    (applyUpdate b now s).user = b.user.getD s.user ∧
    (applyUpdate b now s).createdAt = b.createdAt.getD s.createdAt ∧
    (s.isActive = false → b.isActive = some true → (applyUpdate b now s).isActive = true) ∧
    (∀ u2, b.user = some u2 → (applyUpdate b now s).user = u2) := by
  have hv : (validateUpdate b).isEmpty := by simp [hval]
  refine ⟨?_, ?_, rfl, rfl, rfl, ?_, ?_⟩
  · simp [putHandler, hv, hfind, hschema]
  · simp [putHandler, hv, hfind, hschema]
  · intro _ hb
    simp [applyUpdate, hb]
  · intro u2 hb
    simp [applyUpdate, hb]

/-- Witness for C10: a soft-deleted record of user 1 is matched, then
reactivated, reassigned to user 2, and given a new createdAt. -/
theorem put_writes_all_fields_witness :
    [softDeletedSub].find? (mutFilter 1 5) = some softDeletedSub ∧
    validateUpdate reactivateBody = [] ∧
    schemaValidUpdate reactivateBody = true ∧
    ((putHandler [softDeletedSub] 1 5 reactivateBody 99).1.status = 200 ∧
     (putHandler [softDeletedSub] 1 5 reactivateBody 99).1.subscription =
       some (applyUpdate reactivateBody 99 softDeletedSub) ∧
     (applyUpdate reactivateBody 99 softDeletedSub).isActive =
       reactivateBody.isActive.getD softDeletedSub.isActive ∧
     (applyUpdate reactivateBody 99 softDeletedSub).user =
       reactivateBody.user.getD softDeletedSub.user ∧
     (applyUpdate reactivateBody 99 softDeletedSub).createdAt =
       reactivateBody.createdAt.getD softDeletedSub.createdAt ∧
     (softDeletedSub.isActive = false → reactivateBody.isActive = some true →
       (applyUpdate reactivateBody 99 softDeletedSub).isActive = true) ∧
     (∀ u2, reactivateBody.user = some u2 →
       (applyUpdate reactivateBody 99 softDeletedSub).user = u2)) :=
  ⟨by decide, by decide, by decide,
   put_writes_all_fields [softDeletedSub] 1 5 reactivateBody 99 softDeletedSub
     (by decide) (by decide) (by decide)⟩

/-- Helper: the renewal filter keeps exactly the documents with a
defined renewalDate at most thirty days after now. -/
theorem renewalWithin_iff (now : Int) (s : Subscription) :
    renewalWithin now s = true ↔
      ∃ d, s.renewalDate = some d ∧ d ≤ now + thirtyDaysMs := by
  cases h : s.renewalDate <;> simp [renewalWithin, h]

/-- Helper: every entry of the renewals list comes from an active
subscription of the requester that passed the renewal filter. -/
theorem mem_upcoming (db : DB) (uid : Nat) (now : Int) (e : RenewalEntry)
    (he : e ∈ (statsHandler db uid now).upcomingRenewals) :
    ∃ s, s ∈ db ∧ activeFor uid s = true ∧ renewalWithin now s = true ∧
      e = projectRenewal s := by
  simp only [statsHandler, upcomingRenewals] at he
  obtain ⟨s, hsU, rfl⟩ := List.mem_map.mp he
  have hsS := List.take_subset 5 _ hsU
  have hsF := (List.perm_insertionSort renewalLE _).mem_iff.mp hsS
  obtain ⟨hsA, hw⟩ := List.mem_filter.mp hsF
  obtain ⟨hdb, hact⟩ := List.mem_filter.mp hsA
  exact ⟨s, hdb, hact, hw, rfl⟩

/-- C4: the upcoming-renewals list has at most five entries, each with a
defined renewalDate at most thirty days after now, sorted ascending by
renewalDate, each projected from an active subscription of the
requester; a subscription without renewalDate is excluded from the
renewals but still counted in the total and in the category
breakdown. -/
theorem upcomingRenewals_spec (db : DB) (uid : Nat) (now : Int) :
    (statsHandler db uid now).upcomingRenewals.length ≤ 5 ∧
    (∀ e ∈ (statsHandler db uid now).upcomingRenewals,
      ∃ d, e.renewalDate = some d ∧ d ≤ now + thirtyDaysMs) ∧
    (statsHandler db uid now).upcomingRenewals.Pairwise
      (fun e1 e2 => e1.renewalDate.getD 0 ≤ e2.renewalDate.getD 0) ∧
    (∀ e ∈ (statsHandler db uid now).upcomingRenewals,
      ∃ s, s ∈ db ∧ s.user = uid ∧ s.isActive = true ∧ e = projectRenewal s) ∧
    (statsHandler db uid now).totalSubscriptions = (db.filter (activeFor uid)).length ∧
    (∀ s : Subscription, s.user = uid → s.isActive = true → s.renewalDate = none →
      (statsHandler (s :: db) uid now).totalSubscriptions =
        (statsHandler db uid now).totalSubscriptions + 1 ∧
      (statsHandler (s :: db) uid now).upcomingRenewals =
        (statsHandler db uid now).upcomingRenewals ∧
      (statsHandler (s :: db) uid now).categoryBreakdown s.category =
        some (monthlyCost s + (((db.filter (activeFor uid)).filter
          (fun t => t.category == s.category)).map monthlyCost).sum)) := by
  refine ⟨?_, ?_, ?_, ?_, rfl, ?_⟩
  · simp only [statsHandler, upcomingRenewals, List.length_map, List.length_take]
    exact inf_le_left
  · intro e he
    obtain ⟨s, _, _, hw, rfl⟩ := mem_upcoming db uid now e he
    obtain ⟨d, hd, hle⟩ := (renewalWithin_iff now s).mp hw
    exact ⟨d, hd, hle⟩
  · simp only [statsHandler, upcomingRenewals]
    refine List.pairwise_map.mpr ?_
    have hs := List.sorted_insertionSort renewalLE
      ((db.filter (activeFor uid)).filter (renewalWithin now))
    exact (List.Pairwise.sublist (List.take_sublist 5 _) hs).imp (fun h => h)
  · intro e he
    obtain ⟨s, hdb, hact, _, rfl⟩ := mem_upcoming db uid now e he
    have huser : s.user = uid ∧ s.isActive = true := by
      simpa [activeFor] using hact
    exact ⟨s, hdb, huser.1, huser.2, rfl⟩
  · intro s hu ha hr
    have hact : activeFor uid s = true := by simp [activeFor, hu, ha]
    have hfilter : (s :: db).filter (activeFor uid) = s :: db.filter (activeFor uid) := by
      simp [List.filter_cons, hact]
    have hnw : renewalWithin now s = false := by simp [renewalWithin, hr]
    refine ⟨?_, ?_, ?_⟩
    · simp [statsHandler, hfilter]
    · simp [statsHandler, upcomingRenewals, hfilter, List.filter_cons, hnw]
    · have h1 := categoryBreakdown_foldl (db.filter (activeFor uid))
        (categoryStep (fun _ => none) s) s.category
      have hacc : categoryStep (fun _ => none) s s.category = some (monthlyCost s) := by
        simp [categoryStep, monthlyCost]
      simp only [statsHandler, categoryBreakdown, hfilter, List.foldl_cons] at h1 ⊢
      rw [h1, hacc]
      by_cases ht : (db.filter (activeFor uid)).filter
          (fun t => t.category == s.category) = []
      · simp [ht]
      · simp only [ht, if_false]
        simp

/-- Witness for C4: the edge case at a concrete subscription without a
renewal date. -/
theorem upcomingRenewals_spec_witness :
    (statsHandler [exMonthly] 1 0).upcomingRenewals.length ≤ 5 ∧
    exYearly.user = 1 ∧ exYearly.isActive = true ∧ exYearly.renewalDate = none ∧
    ((statsHandler (exYearly :: [exMonthly]) 1 0).totalSubscriptions =
       (statsHandler [exMonthly] 1 0).totalSubscriptions + 1 ∧
     (statsHandler (exYearly :: [exMonthly]) 1 0).upcomingRenewals =
       (statsHandler [exMonthly] 1 0).upcomingRenewals ∧
     (statsHandler (exYearly :: [exMonthly]) 1 0).categoryBreakdown exYearly.category =
       some (monthlyCost exYearly + ((([exMonthly].filter (activeFor 1)).filter
         (fun t => t.category == exYearly.category)).map monthlyCost).sum)) := by
  obtain ⟨h1, _, _, _, _, h6⟩ := upcomingRenewals_spec [exMonthly] 1 0
  exact ⟨h1, rfl, rfl, rfl, h6 exYearly rfl rfl rfl⟩

end SubTracker
